import Mathlib

/-!
Verification development for the ckeditor-mathformula plugin.

The repository sources under scrutiny are:
  - `src/src/math.ts` — the `Math` glue plugin (requires list, plugin name);
  - `src/src/formula.ts` — the `Formula` plugin ("formulaButton" component);
  - `src/tests/mathui.ts` — the test suite of the `MathUI` balloon controller,
    including the concrete `math.engine` rendering callback used in the test
    configuration.

The `MathUI` implementation itself (`src/mathui.ts`) is not among the given
sources: only its test suite is.  Following the spec ("A UI controller
opening/closing a floating form (balloon) bound to command state, handling
keyboard (open shortcut, Escape-to-close) and mouse (click-outside-to-close)
interactions"), the controller is modelled here as an explicit state machine
over a contextual-balloon data structure, with every user-visible action
(`_showUI`, `_hideUI`, key presses, mouse clicks, submit/cancel) a pure
function from state to state paired with a trace of the observable side
effects (focus changes, balloon mutations, command executions,
preventDefault/stopPropagation) that the tests spy on.
-/

namespace CkMath

/-- Views that can live inside the contextual balloon: the math form view and
arbitrary other views (the tests create plain `View` instances). -/
inductive UIView
  | formView : UIView
  | customView : Nat → UIView
deriving DecidableEq

/-- The state of the `math` command the UI observes: enablement and the
current equation value (a string attribute, absent when the selection carries
no equation). -/
structure MathCommand where
  isEnabled : Bool
  value : Option String
deriving DecidableEq

/-- Modelled from the spec: the host framework's `ContextualBalloon` ("a
floating contextual panel in the host editor UI").  It keeps named viewStacks of
views (topmost view first) and shows one stack at a time; the visible view is
the top of the visible stack.  This mirrors the balloon operations the test
suite exercises: `add` (with an optional `stackId`, default `"main"`),
`remove`, `hasView`, `visibleView` and stack switching. -/
structure Balloon where
  viewStacks : List (String × List UIView)
  visibleStackId : Option String
deriving DecidableEq

/-- The list of views of the stack named `id` (topmost first), empty when no
such stack exists. -/
def stackOf (ss : List (String × List UIView)) (id : String) : List UIView :=
  match ss.find? (fun p => p.1 == id) with
  | some p => p.2
  | none => []

/-- The balloon's visible view: the topmost view of the visible stack. -/
def Balloon.visibleView (b : Balloon) : Option UIView :=
  match b.visibleStackId with
  | some id => (stackOf b.viewStacks id).head?
  | none => none

/-- Whether a view is anywhere in the balloon (any stack). -/
def Balloon.hasView (b : Balloon) (v : UIView) : Bool :=
  b.viewStacks.any (fun p => p.2.contains v)

/-- Push a view onto the stack named `id`, creating the stack when absent. -/
def addToStacks : List (String × List UIView) → String → UIView → List (String × List UIView)
  | [], id, v => [(id, [v])]
  | p :: rest, id, v =>
    if p.1 == id then (p.1, v :: p.2) :: rest
    else p :: addToStacks rest id v

/-- Balloon `add`: push the view onto the given stack; when the balloon was
empty the new stack becomes the visible one, otherwise the visible stack is
unchanged. -/
def Balloon.add (b : Balloon) (id : String) (v : UIView) : Balloon :=
  ⟨addToStacks b.viewStacks id v,
   match b.visibleStackId with
   | none => some id
   | some i => some i⟩

/-- Remove every occurrence of a view from the viewStacks, dropping viewStacks that
become empty (views are unique in the balloon, so this is the single-view
removal of the host framework). -/
def eraseFromStacks (ss : List (String × List UIView)) (v : UIView) :
    List (String × List UIView) :=
  (ss.map (fun p => (p.1, p.2.filter (fun w => w ≠ v)))).filter
    (fun p => ¬ p.2.isEmpty)

/-- Balloon removal of a view.  When the visible stack disappears, the first
remaining stack (if any) becomes visible. -/
def Balloon.eraseView (b : Balloon) (v : UIView) : Balloon :=
  let ss := eraseFromStacks b.viewStacks v
  ⟨ss,
   match b.visibleStackId with
   | some id => if ss.any (fun p => p.1 == id) then some id else (ss.head?).map (fun p => p.1)
   | none => (ss.head?).map (fun p => p.1)⟩

/-- Balloon `remove` as the host framework exposes it: it throws when the
view is not in the balloon, so it is modelled as `Option` (`none` = throw). -/
def Balloon.removeView (b : Balloon) (v : UIView) : Option Balloon :=
  if b.hasView v then some (b.eraseView v) else none

/-- Balloon `showStack`: make the named stack visible (no-op when the stack
does not exist; the controller only calls it right after adding to it). -/
def Balloon.showStack (b : Balloon) (id : String) : Balloon :=
  if b.viewStacks.any (fun p => p.1 == id) then ⟨b.viewStacks, some id⟩ else b

/-- Observable side effects of the UI controller that the test suite spies
on: focus calls, balloon mutations involving the form view, key-event
cancellation, and command execution. -/
inductive UIEvent
  | focusEditable : UIEvent
  | focusSaveButton : UIEvent
  | balloonAddForm : UIEvent
  | balloonRemoveForm : UIEvent
  | preventDefault : UIEvent
  | stopPropagation : UIEvent
  | executeMath : String → UIEvent
deriving DecidableEq

/-- Modelled from the spec: the state of the `MathUI` controller
(`src/mathui.ts`, missing from the sources): the `math` command it is bound
to, the contextual balloon, and whether the controller's `ui#update`
listener (attached while the UI is shown) is active. -/
structure MathUIState where
  command : MathCommand
  balloon : Balloon
  updateListener : Bool
deriving DecidableEq

/-- Binding of the toolbar math button's `isEnabled` to the command
(`bind( 'isEnabled' ).to( mathCommand )` per the spec's "bound to command
state"). -/
def mathButtonIsEnabled (s : MathUIState) : Bool :=
  s.command.isEnabled

/-- Binding of the form's math input value to the command value. -/
def mathInputValue (s : MathUIState) : Option String :=
  s.command.value

/-- Whether the math form view currently sits in the balloon
(`_isFormInPanel`). -/
def isFormInPanel (s : MathUIState) : Bool :=
  s.balloon.hasView UIView.formView

/-- Whether the math form view is the balloon's visible view
(`_isUIVisible`). -/
def isUIVisible (s : MathUIState) : Bool :=
  s.balloon.visibleView == some UIView.formView

/-- Modelled from the spec: `_showUI`.  It returns immediately when the math
command is disabled; otherwise it adds the form view to the balloon's main
stack when absent, makes the main stack visible, and starts listening to
`ui#update`. -/
def showUI (s : MathUIState) : MathUIState × List UIEvent :=
  if s.command.isEnabled then
    let step :
        Balloon × List UIEvent :=
      if s.balloon.hasView UIView.formView then (s.balloon, [])
      else (s.balloon.add "main" UIView.formView, [UIEvent.balloonAddForm])
    (⟨s.command, step.1.showStack "main", true⟩, step.2)
  else (s, [])

/-- Modelled from the spec: `_removeFormView`.  When the form is in the
balloon it focuses the save button, removes the form from the balloon, and
focuses the editable again; otherwise it does nothing (so the balloon's
throwing `remove` is never reached). -/
def removeFormView (s : MathUIState) : MathUIState × List UIEvent :=
  match s.balloon.removeView UIView.formView with
  | some b =>
    (⟨s.command, b, s.updateListener⟩,
     [UIEvent.focusSaveButton, UIEvent.balloonRemoveForm, UIEvent.focusEditable])
  | none => (s, [])

/-- Modelled from the spec: `_hideUI`.  When the form is not in the balloon
it returns immediately; otherwise it stops the `ui#update` listener, focuses
the editable, and removes the form view. -/
def hideUI (s : MathUIState) : MathUIState × List UIEvent :=
  if s.balloon.hasView UIView.formView then
    let step := removeFormView ⟨s.command, s.balloon, false⟩
    (step.1, UIEvent.focusEditable :: step.2)
  else (s, [])

/-- Modelled from the spec: the `Ctrl+M` keystroke handler ("open
shortcut").  It cancels the key event first (preventDefault and
stopPropagation) and then shows the UI when the math command is enabled. -/
def pressCtrlM (s : MathUIState) : MathUIState × List UIEvent :=
  let step := if s.command.isEnabled then showUI s else (s, [])
  (step.1, UIEvent.preventDefault :: UIEvent.stopPropagation :: step.2)

/-- Modelled from the spec: the editor-level `Esc` keystroke handler
("Escape-to-close").  It hides the UI only when the form view is the
balloon's visible view. -/
def pressEscFromEditor (s : MathUIState) : MathUIState × List UIEvent :=
  if isUIVisible s then hideUI s else (s, [])

/-- Modelled from the spec: `_closeFormView`, the handler of the form's
`cancel` event.  When the math command has a value it only removes the form
view; when it has none it hides the whole UI. -/
def closeFormView (s : MathUIState) : MathUIState × List UIEvent :=
  match s.command.value with
  | some _ => removeFormView s
  | none => hideUI s

/-- Modelled from the spec: pressing `Esc` inside the form fires the form's
`cancel` event, which runs `_closeFormView`. -/
def formPressEsc (s : MathUIState) : MathUIState × List UIEvent :=
  closeFormView s

/-- Modelled from the spec: the handler of the form's `submit` event.  It
executes the `math` command with the current math input value and closes the
form view. -/
def submitForm (s : MathUIState) (inputValue : String) : MathUIState × List UIEvent :=
  let step := closeFormView s
  (step.1, UIEvent.executeMath inputValue :: step.2)

/-- Modelled from the spec: the click-outside-to-close handler.  While the
form is in the balloon, a mousedown outside the balloon element hides the
UI; a mousedown inside it does nothing. -/
def mousedown (s : MathUIState) (insideBalloon : Bool) : MathUIState × List UIEvent :=
  if isFormInPanel s && !insideBalloon then hideUI s else (s, [])

/-- How many of the controller's listeners a `ui#update` event would invoke
in the given state (the tests assert this is zero after `_hideUI`). -/
def uiUpdateListenerCalls (s : MathUIState) : Nat :=
  if s.updateListener then 1 else 0

/-- Index of the first occurrence of an event in a trace. -/
def firstIdx : List UIEvent → UIEvent → Option Nat
  | [], _ => none
  | x :: xs, e => if x = e then some 0 else (firstIdx xs e).map (fun n => n + 1)

/-- Predicate on traces: `strictlyBefore evs a b` holds when both events
occur in the trace and the first occurrence of `a` precedes the first
occurrence of `b`. -/
def strictlyBefore (evs : List UIEvent) (a b : UIEvent) : Bool :=
  match firstIdx evs a, firstIdx evs b with
  | some i, some j => i < j
  | _, _ => false

/-- Whether an event is a command execution. -/
def isExecuteEvent : UIEvent → Bool
  | UIEvent.executeMath _ => true
  | _ => false

/-- A DOM element as the rendering callback sees it: its tag and its
rendered content (`innerHTML`). -/
structure DomElement where
  tagName : String
  innerHTML : String
deriving DecidableEq

/-- The markup the `math.engine` callback of the test configuration
(`src/tests/mathui.ts`) writes into the target element: display mode uses
the LaTeX block delimiters, otherwise the inline ones. -/
def mathEngineMarkup (equation : String) (display : Bool) : String :=
  if display then "\\[" ++ equation ++ "\\]"
  else "\\(" ++ equation ++ "\\)"

/-- The `math.engine` callback of the test configuration as an explicit
element transformer: `(equation, element, display) => element.innerHTML = ...`. -/
def applyMathEngine (equation : String) (element : DomElement) (display : Bool) :
    DomElement :=
  ⟨element.tagName, mathEngineMarkup equation display⟩

/-- A model text node carrying string attributes, as in the test data
`<$text equation="x^2">foo</$text>`. -/
structure ModelText where
  text : String
  attrs : List (String × String)
deriving DecidableEq

/-- The equation attribute of a model text node, a string when present. -/
def ModelText.equation (n : ModelText) : Option String :=
  (n.attrs.find? (fun p => p.1 == "equation")).map (fun p => p.2)

/-- The plugin classes occurring in the repository's sources. -/
inductive CKPlugin
  | mathEditingPlugin
  | mathUIPlugin
  | autoMathPlugin
  | widgetPlugin
  | paragraphPlugin
  | contextualBalloonPlugin
  | formulaPlugin
deriving DecidableEq

/-- The `requires` list of the `Math` plugin (`src/src/math.ts`):
`[ MathEditing, MathUI, AutoMath, Widget ]`. -/
def mathPluginRequires : List CKPlugin :=
  [CKPlugin.mathEditingPlugin, CKPlugin.mathUIPlugin,
   CKPlugin.autoMathPlugin, CKPlugin.widgetPlugin]

/-- The `pluginName` of the `Math` plugin (`src/src/math.ts`). -/
def mathPluginName : String := "Math"

/-- Model-level side effects of the `Formula` plugin's button handler. -/
inductive EditorAction
  | insertText : String → EditorAction
  | insertElement : String → EditorAction
  | focusEditingView : EditorAction
deriving DecidableEq

/-- The effect of firing `execute` on the `formulaButton` component
(`src/src/formula.ts`): insert the text `'Hello CKEditor 5!'` via the model
writer, then focus the editing view. -/
def formulaButtonExecute : List EditorAction :=
  [EditorAction.insertText "Hello CKEditor 5!", EditorAction.focusEditingView]


theorem stackOf_nil (id : String) : stackOf [] id = [] := rfl

theorem stackOf_cons (p : String × List UIView) (rest : List (String × List UIView))
    (id : String) :
    stackOf (p :: rest) id = if p.1 == id then p.2 else stackOf rest id := by
  by_cases hp : p.1 == id
  · rw [if_pos hp]; unfold stackOf
    rw [@List.find?_cons_of_pos _ (fun q => q.1 == id) p rest hp]
  · rw [if_neg hp]; unfold stackOf
    rw [@List.find?_cons_of_neg _ (fun q => q.1 == id) p rest hp]

theorem stackOf_addToStacks (ss : List (String × List UIView)) (id : String) (v : UIView) :
    stackOf (addToStacks ss id v) id = v :: stackOf ss id := by
  induction ss with
  | nil => simp [addToStacks, stackOf_cons, stackOf_nil]
  | cons p rest ih =>
    by_cases hp : p.1 == id
    · simp [addToStacks, hp, stackOf_cons]
    · simp [addToStacks, hp, stackOf_cons, ih]

theorem any_addToStacks (ss : List (String × List UIView)) (id : String) (v : UIView) :
    (addToStacks ss id v).any (fun p => p.1 == id) = true := by
  induction ss with
  | nil => simp [addToStacks]
  | cons p rest ih =>
    by_cases hp : p.1 == id
    · simp [addToStacks, hp]
    · simp only [addToStacks, if_neg hp, List.any_cons, ih, Bool.or_true]

theorem contains_addToStacks (ss : List (String × List UIView)) (id : String) (v : UIView) :
    (addToStacks ss id v).any (fun p => p.2.contains v) = true := by
  induction ss with
  | nil => simp [addToStacks]
  | cons p rest ih =>
    by_cases hp : p.1 == id
    · simp [addToStacks, hp]
    · simp only [addToStacks, if_neg hp, List.any_cons, ih, Bool.or_true]

theorem hasView_add (b : Balloon) (id : String) (v : UIView) :
    (b.add id v).hasView v = true := by
  simpa [Balloon.add, Balloon.hasView] using contains_addToStacks b.viewStacks id v

theorem any_of_mem_stackOf (ss : List (String × List UIView)) (id : String) (v : UIView)
    (h : v ∈ stackOf ss id) : ss.any (fun p => p.2.contains v) = true := by
  unfold stackOf at h
  cases hf : ss.find? (fun p => p.1 == id) with
  | none => rw [hf] at h; simp at h
  | some p =>
    rw [hf] at h
    exact List.any_eq_true.mpr ⟨p, List.mem_of_find?_eq_some hf, by simpa using h⟩

theorem hasView_of_visibleView (b : Balloon) (v : UIView)
    (h : b.visibleView = some v) : b.hasView v = true := by
  unfold Balloon.visibleView at h
  cases hvis : b.visibleStackId with
  | none => rw [hvis] at h; exact absurd h (by simp)
  | some id =>
    rw [hvis] at h
    have h' : (stackOf b.viewStacks id).head? = some v := h
    obtain ⟨ys, hys⟩ := List.head?_eq_some_iff.mp h'
    exact any_of_mem_stackOf b.viewStacks id v (by rw [hys]; exact List.mem_cons_self _ _)

theorem visibleView_ne_of_not_hasView (b : Balloon) (v : UIView)
    (h : b.hasView v = false) : b.visibleView ≠ some v := by
  intro hv
  rw [hasView_of_visibleView b v hv] at h
  simp at h

theorem contains_filter_ne (l : List UIView) (v : UIView) :
    (l.filter (fun w => w ≠ v)).contains v = false := by
  rw [List.contains_eq_any_beq, List.any_eq_false]
  intro x hx
  rcases List.mem_filter.mp hx with ⟨-, hne⟩
  intro hbeq
  rw [eq_of_beq hbeq] at hne
  simp at hne

theorem hasView_eraseView (b : Balloon) (v : UIView) :
    (b.eraseView v).hasView v = false := by
  unfold Balloon.eraseView Balloon.hasView eraseFromStacks
  rw [List.any_eq_false]
  intro p hp
  have h1 : p ∈ b.viewStacks.map (fun q => (q.1, q.2.filter (fun w => w ≠ v))) :=
    (List.mem_filter.mp hp).1
  obtain ⟨q, hq, heq⟩ := List.mem_map.mp h1
  intro hc
  rw [← heq] at hc
  have hc' : (q.2.filter (fun w => w ≠ v)).contains v = true := hc
  rw [contains_filter_ne] at hc'
  simp at hc'


theorem showUI_of_disabled (s : MathUIState) (h : s.command.isEnabled = false) :
    showUI s = (s, []) := by
  simp [showUI, h]

theorem showUI_fresh (s : MathUIState) (hEn : s.command.isEnabled = true)
    (hAbs : s.balloon.hasView UIView.formView = false) :
    showUI s =
      (⟨s.command,
        ⟨addToStacks s.balloon.viewStacks "main" UIView.formView, some "main"⟩, true⟩,
       [UIEvent.balloonAddForm]) := by
  simp [showUI, hEn, hAbs, Balloon.add, Balloon.showStack, any_addToStacks]

theorem visibleView_after_add (ss : List (String × List UIView)) :
    Balloon.visibleView ⟨addToStacks ss "main" UIView.formView, some "main"⟩ =
      some UIView.formView := by
  simp [Balloon.visibleView, stackOf_addToStacks]

theorem hideUI_of_hasView (s : MathUIState)
    (h : s.balloon.hasView UIView.formView = true) :
    hideUI s =
      (⟨s.command, s.balloon.eraseView UIView.formView, false⟩,
       [UIEvent.focusEditable, UIEvent.focusSaveButton,
        UIEvent.balloonRemoveForm, UIEvent.focusEditable]) := by
  simp [hideUI, h, removeFormView, Balloon.removeView]

theorem hideUI_of_not_hasView (s : MathUIState)
    (h : s.balloon.hasView UIView.formView = false) :
    hideUI s = (s, []) := by
  simp [hideUI, h]

theorem removeFormView_of_hasView (s : MathUIState)
    (h : s.balloon.hasView UIView.formView = true) :
    removeFormView s =
      (⟨s.command, s.balloon.eraseView UIView.formView, s.updateListener⟩,
       [UIEvent.focusSaveButton, UIEvent.balloonRemoveForm, UIEvent.focusEditable]) := by
  simp [removeFormView, Balloon.removeView, h]



/-- Claim C1: the math UI is bound to the math command's state: the toolbar
math button is enabled iff the command is enabled, the form's math input
value equals the command's value, and `_showUI` while the command is
disabled leaves the state (in particular the balloon and its visible view)
unchanged. -/
theorem mathui_bound_to_command (s : MathUIState) :
    (mathButtonIsEnabled s = true ↔ s.command.isEnabled = true) ∧
    mathInputValue s = s.command.value ∧
    (s.command.isEnabled = false →
      showUI s = (s, []) ∧
      (showUI s).1.balloon.visibleView = s.balloon.visibleView) := by
  refine ⟨Iff.rfl, rfl, fun h => ?_⟩
  rw [showUI_of_disabled s h]
  exact ⟨rfl, rfl⟩

/-- Claim C1 witness: at a concrete disabled-command state, `_showUI` leaves
everything unchanged. -/
theorem mathui_bound_to_command_witness :
    showUI ⟨⟨false, none⟩, ⟨[], none⟩, false⟩ =
      (⟨⟨false, none⟩, ⟨[], none⟩, false⟩, []) :=
  ((mathui_bound_to_command ⟨⟨false, none⟩, ⟨[], none⟩, false⟩).2.2 rfl).1

/-- Claim C2: when the UI is not already open, `Ctrl+M` calls
`preventDefault` and `stopPropagation` exactly once regardless of command
enablement, and the math form becomes the balloon's visible view iff the
math command is enabled. -/
theorem ctrlM_shows_ui_iff_enabled (s : MathUIState)
    (h : s.balloon.hasView UIView.formView = false) :
    (pressCtrlM s).2.count UIEvent.preventDefault = 1 ∧
    (pressCtrlM s).2.count UIEvent.stopPropagation = 1 ∧
    ((pressCtrlM s).1.balloon.visibleView = some UIView.formView ↔
      s.command.isEnabled = true) := by
  cases hEn : s.command.isEnabled with
  | false =>
    have hP : pressCtrlM s = (s, [UIEvent.preventDefault, UIEvent.stopPropagation]) := by
      simp [pressCtrlM, hEn]
    rw [hP]
    refine ⟨by simp, by simp, ?_⟩
    constructor
    · intro hv; exact absurd hv (visibleView_ne_of_not_hasView s.balloon UIView.formView h)
    · intro hc; exact absurd hc (by simp)
  | true =>
    have hP : pressCtrlM s =
        ((showUI s).1, UIEvent.preventDefault :: UIEvent.stopPropagation :: (showUI s).2) := by
      simp [pressCtrlM, hEn]
    rw [hP, showUI_fresh s hEn h]
    refine ⟨by simp, by simp, ?_⟩
    simp [visibleView_after_add]

/-- Claim C2 witness: at a concrete enabled-command state with an empty
balloon, `Ctrl+M` makes the form visible. -/
theorem ctrlM_shows_ui_iff_enabled_witness :
    (pressCtrlM ⟨⟨true, none⟩, ⟨[], none⟩, false⟩).1.balloon.visibleView =
      some UIView.formView :=
  ((ctrlM_shows_ui_iff_enabled ⟨⟨true, none⟩, ⟨[], none⟩, false⟩ rfl).2.2).mpr rfl

/-- Claim C3: `Esc` closes the math UI when the form is the balloon's
visible view, whether pressed in the editor or in the form, and does not
close it when the form is in the balloon but another view is visible. -/
theorem esc_closes_visible_ui (s : MathUIState) :
    (s.balloon.visibleView = some UIView.formView →
      isFormInPanel (pressEscFromEditor s).1 = false ∧
      isFormInPanel (formPressEsc s).1 = false) ∧
    (s.balloon.hasView UIView.formView = true →
      s.balloon.visibleView ≠ some UIView.formView →
      pressEscFromEditor s = (s, [])) := by
  constructor
  · intro hv
    have hHas : s.balloon.hasView UIView.formView = true :=
      hasView_of_visibleView s.balloon UIView.formView hv
    have hVis : isUIVisible s = true := by
      simp [isUIVisible, hv]
    constructor
    · rw [pressEscFromEditor, if_pos hVis, hideUI_of_hasView s hHas]
      exact hasView_eraseView s.balloon UIView.formView
    · rw [formPressEsc]
      show isFormInPanel (closeFormView s).1 = false
      cases hval : s.command.value with
      | none =>
        have hc : closeFormView s = hideUI s := by simp [closeFormView, hval]
        rw [hc, hideUI_of_hasView s hHas]
        exact hasView_eraseView s.balloon UIView.formView
      | some eqv =>
        have hc : closeFormView s = removeFormView s := by simp [closeFormView, hval]
        rw [hc, removeFormView_of_hasView s hHas]
        exact hasView_eraseView s.balloon UIView.formView
  · intro hHas hne
    have hVis : isUIVisible s = false := by
      simp [isUIVisible]
      exact hne
    rw [pressEscFromEditor, if_neg (by simp [hVis])]



/-- Claim C3 witness: at a concrete state where the form is the visible
view, the editor-level `Esc` removes the form from the balloon. -/
theorem esc_closes_visible_ui_witness :
    isFormInPanel
      (pressEscFromEditor
        ⟨⟨true, none⟩, ⟨[("main", [UIView.formView])], some "main"⟩, true⟩).1 = false :=
  ((esc_closes_visible_ui
      ⟨⟨true, none⟩, ⟨[("main", [UIView.formView])], some "main"⟩, true⟩).1 (by decide)).1

/-- Claim C4: while the form is in the balloon, a mousedown outside the
balloon removes the form from the balloon, and a mousedown inside the
balloon changes nothing. -/
theorem mousedown_outside_hides_ui (s : MathUIState)
    (h : isFormInPanel s = true) :
    isFormInPanel (mousedown s false).1 = false ∧
    mousedown s true = (s, []) := by
  constructor
  · have hm : mousedown s false = hideUI s := by
      simp [mousedown, h]
    rw [hm]
    show isFormInPanel (hideUI s).1 = false
    rw [hideUI_of_hasView s h]
    exact hasView_eraseView s.balloon UIView.formView
  · simp [mousedown]

/-- Claim C4 witness: at a concrete shown state, an outside mousedown
removes the form and an inside mousedown is a no-op. -/
theorem mousedown_outside_hides_ui_witness :
    isFormInPanel
      (mousedown
        ⟨⟨true, none⟩, ⟨[("main", [UIView.formView])], some "main"⟩, true⟩ false).1 = false :=
  (mousedown_outside_hides_ui
    ⟨⟨true, none⟩, ⟨[("main", [UIView.formView])], some "main"⟩, true⟩ (by decide)).1

/-- Claim C5: the rendering engine of the test configuration is a function
of (equation source, target element, display flag) that rewrites the
element's content and nothing else; display mode `true` wraps the equation
in the LaTeX block delimiters, `false` in the inline ones (so the two modes
render differently), and the equation value is a string attribute on model
text nodes. -/
theorem math_engine_callback (equation txt : String) (element : DomElement) :
    (applyMathEngine equation element true).innerHTML = "\\[" ++ equation ++ "\\]" ∧
    (applyMathEngine equation element false).innerHTML = "\\(" ++ equation ++ "\\)" ∧
    (applyMathEngine equation element true).tagName = element.tagName ∧
    (applyMathEngine equation element false).tagName = element.tagName ∧
    (applyMathEngine equation element true).innerHTML ≠
      (applyMathEngine equation element false).innerHTML ∧
    (ModelText.mk txt [("equation", equation)]).equation = some equation := by
  refine ⟨by simp [applyMathEngine, mathEngineMarkup], by simp [applyMathEngine, mathEngineMarkup],
    rfl, rfl, ?_, by simp [ModelText.equation]⟩
  simp only [applyMathEngine, mathEngineMarkup, if_pos, if_neg]
  intro hc
  have hdata := congrArg String.data hc
  simp [String.data_append] at hdata

/-- Claim C7: the `Math` plugin requires exactly `MathEditing`, `MathUI`,
`AutoMath` and `Widget`, in this order, and its plugin name is `'Math'`. -/
theorem math_plugin_requires_exact :
    mathPluginRequires =
      [CKPlugin.mathEditingPlugin, CKPlugin.mathUIPlugin,
       CKPlugin.autoMathPlugin, CKPlugin.widgetPlugin] ∧
    mathPluginRequires.length = 4 ∧
    mathPluginName = "Math" :=
  ⟨rfl, rfl, rfl⟩



theorem removeFormView_of_not_hasView (s : MathUIState)
    (h : s.balloon.hasView UIView.formView = false) :
    removeFormView s = (s, []) := by
  simp [removeFormView, Balloon.removeView, h]

theorem closeFormView_no_execute (s : MathUIState) :
    (closeFormView s).2.filter isExecuteEvent = [] := by
  have hre : (removeFormView s).2.filter isExecuteEvent = [] := by
    cases hh : s.balloon.hasView UIView.formView with
    | true => rw [removeFormView_of_hasView s hh]; rfl
    | false => rw [removeFormView_of_not_hasView s hh]; rfl
  have hhi : (hideUI s).2.filter isExecuteEvent = [] := by
    cases hh : s.balloon.hasView UIView.formView with
    | true => rw [hideUI_of_hasView s hh]; rfl
    | false => rw [hideUI_of_not_hasView s hh]; rfl
  cases hval : s.command.value with
  | some v =>
    have hc : closeFormView s = removeFormView s := by simp [closeFormView, hval]
    rw [hc]; exact hre
  | none =>
    have hc : closeFormView s = hideUI s := by simp [closeFormView, hval]
    rw [hc]; exact hhi

/-- Claim C6: firing the form's `submit` event executes the math command
exactly once, with the math input value as argument, and firing `cancel`
while the math command has no value hides the balloon (its visible view
becomes `none`). -/
theorem submit_executes_once_cancel_hides (s : MathUIState) (v : String)
    (h1 : s.command.value = none)
    (h2 : s.balloon = ⟨[("main", [UIView.formView])], some "main"⟩) :
    (submitForm s v).2.filter isExecuteEvent = [UIEvent.executeMath v] ∧
    (closeFormView s).1.balloon.visibleView = none := by
  constructor
  · show (UIEvent.executeMath v :: (closeFormView s).2).filter isExecuteEvent = _
    simp [List.filter_cons, closeFormView_no_execute s, isExecuteEvent]
  · have hc : closeFormView s = hideUI s := by simp [closeFormView, h1]
    have hHas : s.balloon.hasView UIView.formView = true := by rw [h2]; decide
    rw [hc, hideUI_of_hasView s hHas]
    show (s.balloon.eraseView UIView.formView).visibleView = none
    rw [h2]
    decide

/-- Claim C6 witness: at a concrete state whose balloon holds only the math
form and whose command has no value, `submit` executes the command once with
the typed equation and `cancel` empties the balloon. -/
theorem submit_executes_once_cancel_hides_witness :
    (submitForm ⟨⟨true, none⟩, ⟨[("main", [UIView.formView])], some "main"⟩, true⟩
        "x^2").2.filter isExecuteEvent = [UIEvent.executeMath "x^2"] ∧
    (closeFormView
        ⟨⟨true, none⟩, ⟨[("main", [UIView.formView])], some "main"⟩,
         true⟩).1.balloon.visibleView = none :=
  submit_executes_once_cancel_hides
    ⟨⟨true, none⟩, ⟨[("main", [UIView.formView])], some "main"⟩, true⟩ "x^2" rfl rfl

/-- Claim C8: from any state with an enabled command and the form not yet in
the balloon, `_showUI` is idempotent (a second call is a no-op and the form
stays the visible view), `_hideUI` then removes the form, a second `_hideUI`
on a form-free balloon is a no-op, and after `_hideUI` a `ui#update` event
invokes no leftover listener. -/
theorem show_hide_roundtrip (s : MathUIState)
    (hEn : s.command.isEnabled = true)
    (hAbs : s.balloon.hasView UIView.formView = false) :
    showUI (showUI s).1 = ((showUI s).1, []) ∧
    (showUI s).1.balloon.visibleView = some UIView.formView ∧
    isFormInPanel (hideUI (showUI s).1).1 = false ∧
    hideUI (hideUI (showUI s).1).1 = ((hideUI (showUI s).1).1, []) ∧
    uiUpdateListenerCalls (hideUI (showUI s).1).1 = 0 := by
  have hs1 : (showUI s).1 =
      ⟨s.command, ⟨addToStacks s.balloon.viewStacks "main" UIView.formView, some "main"⟩,
       true⟩ := by
    rw [showUI_fresh s hEn hAbs]
  rw [hs1]
  have hHas1 : Balloon.hasView
      ⟨addToStacks s.balloon.viewStacks "main" UIView.formView, some "main"⟩
      UIView.formView = true := by
    simpa [Balloon.hasView] using contains_addToStacks s.balloon.viewStacks "main" UIView.formView
  refine ⟨?_, visibleView_after_add s.balloon.viewStacks, ?_, ?_, ?_⟩
  · simp [showUI, hEn, hHas1, Balloon.showStack, any_addToStacks]
  · rw [hideUI_of_hasView _ hHas1]
    exact hasView_eraseView _ UIView.formView
  · rw [hideUI_of_hasView
      ⟨s.command, ⟨addToStacks s.balloon.viewStacks "main" UIView.formView, some "main"⟩,
       true⟩ hHas1]
    exact hideUI_of_not_hasView _ (hasView_eraseView _ UIView.formView)
  · rw [hideUI_of_hasView _ hHas1]
    rfl

/-- Claim C8 witness: the round trip at a concrete enabled state with an
empty balloon ends with no leftover `ui#update` listener. -/
theorem show_hide_roundtrip_witness :
    uiUpdateListenerCalls
      (hideUI (showUI ⟨⟨true, none⟩, ⟨[], none⟩, false⟩).1).1 = 0 :=
  (show_hide_roundtrip ⟨⟨true, none⟩, ⟨[], none⟩, false⟩ rfl rfl).2.2.2.2

/-- Claim C9: the `formulaButton` component's `execute` handler inserts the
literal text `'Hello CKEditor 5!'` (no element or widget insertion occurs)
and focuses the editing view afterwards. -/
theorem formula_button_inserts_text :
    formulaButtonExecute.head? = some (EditorAction.insertText "Hello CKEditor 5!") ∧
    formulaButtonExecute.getLast? = some EditorAction.focusEditingView ∧
    ∀ nm : String, EditorAction.insertElement nm ∉ formulaButtonExecute := by
  refine ⟨rfl, rfl, fun nm => ?_⟩
  intro hmem
  simp [formulaButtonExecute] at hmem

/-- Claim C10: when the UI actually closes, focus moves before removal:
`_hideUI` focuses the editable strictly before the balloon `remove` call,
and the `cancel` path focuses the save button strictly before the balloon
`remove` call. -/
theorem focus_before_removal (s : MathUIState)
    (h : s.balloon.hasView UIView.formView = true) :
    strictlyBefore (hideUI s).2 UIEvent.focusEditable UIEvent.balloonRemoveForm = true ∧
    strictlyBefore (closeFormView s).2 UIEvent.focusSaveButton UIEvent.balloonRemoveForm
      = true := by
  constructor
  · rw [hideUI_of_hasView s h]
    rfl
  · cases hval : s.command.value with
    | some v =>
      have hc : closeFormView s = removeFormView s := by simp [closeFormView, hval]
      rw [hc, removeFormView_of_hasView s h]
      rfl
    | none =>
      have hc : closeFormView s = hideUI s := by simp [closeFormView, hval]
      rw [hc, hideUI_of_hasView s h]
      rfl

/-- Claim C10 witness: at a concrete shown state, the editable is focused
before the removal in `_hideUI` and the save button before the removal on
`cancel`. -/
theorem focus_before_removal_witness :
    strictlyBefore
      (hideUI ⟨⟨true, none⟩, ⟨[("main", [UIView.formView])], some "main"⟩, true⟩).2
      UIEvent.focusEditable UIEvent.balloonRemoveForm = true ∧
    strictlyBefore
      (closeFormView ⟨⟨true, none⟩, ⟨[("main", [UIView.formView])], some "main"⟩, true⟩).2
      UIEvent.focusSaveButton UIEvent.balloonRemoveForm = true :=
  focus_before_removal
    ⟨⟨true, none⟩, ⟨[("main", [UIView.formView])], some "main"⟩, true⟩ (by decide)



/-- Claim C5 witness: at a concrete equation and element, block and inline
rendering differ. -/
theorem math_engine_callback_witness :
    (applyMathEngine "x^2" ⟨"div", ""⟩ true).innerHTML ≠
      (applyMathEngine "x^2" ⟨"div", ""⟩ false).innerHTML :=
  (math_engine_callback "x^2" "foo" ⟨"div", ""⟩).2.2.2.2.1

/-- Claim C9 witness: no equation element insertion occurs in the
`formulaButton` handler. -/
theorem formula_button_inserts_text_witness :
    EditorAction.insertElement "equation" ∉ formulaButtonExecute :=
  formula_button_inserts_text.2.2 "equation"

end CkMath
